import Mathlib

/-!
Shallow embedding of `src/main.py` (JobSpy API wrapper, FastAPI service).

The service exposes five endpoints; the ones with behaviour worth verifying
are the two search handlers (`search_jobs_simple`, `search_jobs_post`), the
diagnostic endpoint (`test_jobspy`) and the static catalogue
(`get_supported_sites`).  The external scraping library (`jobspy.scrape_jobs`)
is opaque: its outcome is modelled as a value of `ScrapeOutcome` (either a
returned data frame, possibly `None`, or a raised exception carrying its
string form).  A pandas data frame converted by `to_dict('records')` is
modelled as a list of rows, each row an ordered association list from field
name to `Value`.
-/

/-- A cell value in a scraped result row.  `nan` is the pandas missing-value
marker (NaN/NaT); `null` is Python `None` (which pandas `isna` also treats as
missing). -/
inductive Value where
  | nan : Value
  | null : Value
  | str : String → Value
  | int : Int → Value
  | bool : Bool → Value
deriving DecidableEq, Repr

/-- One scraped job listing: an ordered field-name-to-value mapping, as
produced by `jobs_df.to_dict('records')`. -/
abbrev Row := List (String × Value)

/-- `pd.isna(value)` from `src/main.py` lines 111 and 162: true exactly on the
missing-value markers (NaN/NaT and Python `None`). -/
def pandas_isna : Value → Bool
  | Value.nan => true
  | Value.null => true
  | _ => false

/-- The body of the cleaning loop (`src/main.py` lines 110-112 and 161-163):
`if pd.isna(value): job[key] = None`. -/
def cleanValue (v : Value) : Value :=
  if pandas_isna v then Value.null else v

/-- The inner loop over `job.items()`: every field of a row is cleaned. -/
def cleanRow (job : Row) : Row :=
  job.map (fun kv => (kv.1, cleanValue kv.2))

/-- The outer loop over `jobs_list` (`src/main.py` lines 109-112, identically
lines 160-163): every row is cleaned in place. -/
def cleanJobs (jobs_list : List Row) : List Row :=
  jobs_list.map cleanRow

/-- Response model of both search endpoints (`JobSearchResponse`,
`src/main.py` lines 41-45; the simple endpoint returns the same shape as a
plain dict). -/
structure JobSearchResponse where
  success : Bool
  message : String
  total_jobs : Nat
  jobs : List Row
deriving DecidableEq, Repr

/-- Outcome of the external call `scrape_jobs(...)`: either a data frame
(`none` models a Python `None` return, `some rows` a frame with the given
rows) or a raised exception with message `msg`. -/
inductive ScrapeOutcome where
  | ok : Option (List Row) → ScrapeOutcome
  | exn : String → ScrapeOutcome
deriving DecidableEq, Repr

/-- What a handler invocation produces: a successful JSON body, or an
`HTTPException(status_code, detail)`. -/
inductive HandlerResult where
  | ok : JobSearchResponse → HandlerResult
  | httpError : Nat → String → HandlerResult
deriving DecidableEq, Repr

/-- Projects the successful response out of a handler result. -/
def responseOf : HandlerResult → Option JobSearchResponse
  | HandlerResult.ok r => some r
  | HandlerResult.httpError _ _ => none

/-- Projects the HTTP error detail out of a handler result. -/
def resultDetail : HandlerResult → Option String
  | HandlerResult.ok _ => none
  | HandlerResult.httpError _ d => some d

/-- Body of `search_jobs_simple` (`src/main.py` lines 85-125) as a function of
the external call's outcome.  `ScrapeOutcome.ok none` and an empty frame take
the zero-result branch (line 99); a non-empty frame is converted to records,
cleaned and counted (lines 108-121); an exception is re-raised as
`HTTPException(500, "Search failed: " + str(e))` (line 125). -/
def search_jobs_simple_handler : ScrapeOutcome → HandlerResult
  | ScrapeOutcome.exn e => HandlerResult.httpError 500 ("Search failed: " ++ e)
  | ScrapeOutcome.ok none =>
      HandlerResult.ok
        { success := true, message := "No jobs found for the search criteria",
          total_jobs := 0, jobs := [] }
  | ScrapeOutcome.ok (some df) =>
      if df.isEmpty then
        HandlerResult.ok
          { success := true, message := "No jobs found for the search criteria",
            total_jobs := 0, jobs := [] }
      else
        let jobs_list := cleanJobs df
        HandlerResult.ok
          { success := true,
            message := "Found " ++ toString jobs_list.length ++ " jobs",
            total_jobs := jobs_list.length, jobs := jobs_list }

/-- Body of `search_jobs_post` (`src/main.py` lines 130-174) as a function of
the external call's outcome.  Same shape as the simple handler, except the
zero-result message is `"No jobs found"` (line 152) and the exception detail
is `str(e)` with no prefix (line 174). -/
def search_jobs_post_handler : ScrapeOutcome → HandlerResult
  | ScrapeOutcome.exn e => HandlerResult.httpError 500 e
  | ScrapeOutcome.ok none =>
      HandlerResult.ok
        { success := true, message := "No jobs found", total_jobs := 0, jobs := [] }
  | ScrapeOutcome.ok (some df) =>
      if df.isEmpty then
        HandlerResult.ok
          { success := true, message := "No jobs found", total_jobs := 0, jobs := [] }
      else
        let jobs_list := cleanJobs df
        HandlerResult.ok
          { success := true,
            message := "Found " ++ toString jobs_list.length ++ " jobs",
            total_jobs := jobs_list.length, jobs := jobs_list }

/-- Request body of the advanced endpoint (`JobSearchRequest`, `src/main.py`
lines 34-39).  `results_wanted` and `is_remote` are `Optional` in the source
(an explicit JSON `null` is accepted), hence `Option` here; the defaults
mirror the `Field` defaults. -/
structure JobSearchRequest where
  search_term : String
  location : String := ""
  site_name : List String := ["indeed"]
  results_wanted : Option Int := some 10
  is_remote : Option Bool := some false
deriving DecidableEq, Repr

/-- A value placed in the `search_params` dict (`src/main.py` lines 136-142):
a string, a list of site names, an optional integer or an optional boolean. -/
inductive ParamValue where
  | str : String → ParamValue
  | strList : List String → ParamValue
  | optInt : Option Int → ParamValue
  | optBool : Option Bool → ParamValue
deriving DecidableEq, Repr

/-- Python truthiness of a parameter value, as tested by `if v` on line 145:
`""`, `[]`, `None`, `0` and `False` are falsy, everything else truthy. -/
def py_truthy : ParamValue → Bool
  | ParamValue.str s => !(s == "")
  | ParamValue.strList l => !l.isEmpty
  | ParamValue.optInt none => false
  | ParamValue.optInt (some n) => !(n == 0)
  | ParamValue.optBool none => false
  | ParamValue.optBool (some b) => b

/-- The `search_params` dict before filtering (`src/main.py` lines 136-142),
in insertion order. -/
def search_params_raw (request : JobSearchRequest) : List (String × ParamValue) :=
  [("search_term", ParamValue.str request.search_term),
   ("location", ParamValue.str request.location),
   ("site_name", ParamValue.strList request.site_name),
   ("results_wanted", ParamValue.optInt request.results_wanted),
   ("is_remote", ParamValue.optBool request.is_remote)]

/-- The dict comprehension on line 145: `{k: v for k, v in
search_params.items() if v}`. -/
def search_params (request : JobSearchRequest) : List (String × ParamValue) :=
  (search_params_raw request).filter (fun kv => py_truthy kv.2)

/-- Modelled from the spec: FastAPI request-schema validation, whose code is
not part of this repository.  The bounds are declared in `src/main.py` line
82 (`Query(5, ge=1, le=20)`); per the spec, an out-of-range value "is
rejected before any external call is attempted" with HTTP 422, otherwise the
handler body runs. -/
def endpoint_search_jobs_simple (results_wanted : Int) (scrape : ScrapeOutcome) :
    HandlerResult :=
  if 1 ≤ results_wanted ∧ results_wanted ≤ 20 then
    search_jobs_simple_handler scrape
  else
    HandlerResult.httpError 422 "validation error"

/-- Modelled from the spec: pydantic request-schema validation, whose code is
not part of this repository.  The bounds are declared in `src/main.py` line
38 (`Field(default=10, ge=1, le=50)` on an `Optional[int]`); an out-of-range
provided value is rejected with HTTP 422 before the handler body (and hence
the external call) runs. -/
def endpoint_search_jobs_post (request : JobSearchRequest) (scrape : ScrapeOutcome) :
    HandlerResult :=
  match request.results_wanted with
  | none => search_jobs_post_handler scrape
  | some n =>
      if 1 ≤ n ∧ n ≤ 50 then
        search_jobs_post_handler scrape
      else
        HandlerResult.httpError 422 "validation error"

/-- Response of the diagnostic endpoint `GET /test` (`src/main.py` lines
65-69 and 72-76). -/
structure TestResponse where
  status : String
  message : String
  jobspy_imported : Bool
deriving DecidableEq, Repr

/-- Body of `test_jobspy` (`src/main.py` lines 57-76) as a function of the
attempted dependency load: success yields the fixed success payload, a
caught exception yields the error payload "JobSpy test failed: " followed by
the exception text, with the flag false.  Either way a 200 response, never a
failure. -/
def test_jobspy_handler : Except String Unit → TestResponse
  | Except.ok _ =>
      { status := "success", message := "JobSpy is working correctly",
        jobspy_imported := true }
  | Except.error e =>
      { status := "error", message := "JobSpy test failed: " ++ e,
        jobspy_imported := false }

/-- Response of `GET /supported-sites` (`src/main.py` lines 179-182). -/
structure SupportedSitesResponse where
  supported_sites : List String
  note : String
deriving DecidableEq, Repr

/-- Body of `get_supported_sites` (`src/main.py` lines 176-182): a constant
payload, no computation and no input. -/
def get_supported_sites : SupportedSitesResponse :=
  { supported_sites := ["indeed", "linkedin", "glassdoor", "google", "ziprecruiter"],
    note := "Indeed is most reliable for testing" }

/-- The ordered list of field names of a row. -/
def rowKeys (r : Row) : List String :=
  r.map Prod.fst

/-- C1: for every search call (simple or POST) whose external scrape call
returns a frame of N rows, the response's `total_jobs` field equals N and its
`jobs` list has length N. -/
theorem C1_total_jobs_matches_rows (rows : List Row) :
    (responseOf (search_jobs_simple_handler (ScrapeOutcome.ok (some rows)))).map
        (fun r => (r.total_jobs, r.jobs.length)) = some (rows.length, rows.length) ∧
    (responseOf (search_jobs_post_handler (ScrapeOutcome.ok (some rows)))).map
        (fun r => (r.total_jobs, r.jobs.length)) = some (rows.length, rows.length) := by
  constructor <;>
  · cases rows with
    | nil => rfl
    | cons r rs =>
        simp [search_jobs_simple_handler, search_jobs_post_handler, responseOf, cleanJobs]

/-- C2: for every search call whose external scrape call returns no rows
(a `None` frame or an empty frame), the response is a success with
`total_jobs = 0` and `jobs = []`, never an error; on the simple endpoint the
message is exactly "No jobs found for the search criteria". -/
theorem C2_empty_result_success :
    search_jobs_simple_handler (ScrapeOutcome.ok none) =
      HandlerResult.ok
        { success := true, message := "No jobs found for the search criteria",
          total_jobs := 0, jobs := [] } ∧
    search_jobs_simple_handler (ScrapeOutcome.ok (some [])) =
      HandlerResult.ok
        { success := true, message := "No jobs found for the search criteria",
          total_jobs := 0, jobs := [] } ∧
    search_jobs_post_handler (ScrapeOutcome.ok none) =
      HandlerResult.ok
        { success := true, message := "No jobs found", total_jobs := 0, jobs := [] } ∧
    search_jobs_post_handler (ScrapeOutcome.ok (some [])) =
      HandlerResult.ok
        { success := true, message := "No jobs found", total_jobs := 0, jobs := [] } :=
  ⟨rfl, rfl, rfl, rfl⟩

/-- C3: in the null-normalization step shared by both search endpoints
(`cleanRow` applied to every row by `cleanJobs`), every field value that is a
missing-value marker is replaced with null, and every other value is left
exactly unchanged; field names are untouched.  Stated over the pairing of an
input row with its cleaned output. -/
theorem C3_nan_replaced_others_unchanged (r : Row)
    (p : (String × Value) × (String × Value)) (hp : p ∈ r.zip (cleanRow r)) :
    p.2.1 = p.1.1 ∧
    (pandas_isna p.1.2 = true → p.2.2 = Value.null) ∧
    (pandas_isna p.1.2 = false → p.2.2 = p.1.2) := by
  induction r with
  | nil => simp [cleanRow] at hp
  | cons a t ih =>
      simp only [cleanRow, List.map_cons, List.zip_cons_cons, List.mem_cons] at hp
      rcases hp with h | h
      · subst h
        refine ⟨rfl, ?_, ?_⟩ <;> intro hv <;> simp [cleanValue, hv]
      · exact ih h

/-- Witness for C3 at a concrete row with one marker field and one plain
field. -/
theorem C3_nan_replaced_others_unchanged_witness :
    ((("title", Value.nan), ("title", Value.null)) :
        (String × Value) × (String × Value)).2.1 =
      (("title", Value.nan), ("title", Value.null)).1.1 ∧
    (pandas_isna (("title", Value.nan), ("title", Value.null)).1.2 = true →
      (("title", Value.nan), ("title", Value.null)).2.2 = Value.null) ∧
    (pandas_isna (("title", Value.nan), ("title", Value.null)).1.2 = false →
      (("title", Value.nan), ("title", Value.null)).2.2 =
        (("title", Value.nan), ("title", Value.null)).1.2) :=
  C3_nan_replaced_others_unchanged
    [("title", Value.nan), ("company", Value.str "Acme")]
    (("title", Value.nan), ("title", Value.null)) (by decide)

/-- C9: `GET /supported-sites` always returns the same fixed five-element
site list and the same static advisory note. -/
theorem C9_supported_sites_static :
    get_supported_sites =
      { supported_sites := ["indeed", "linkedin", "glassdoor", "google", "ziprecruiter"],
        note := "Indeed is most reliable for testing" } ∧
    get_supported_sites.supported_sites.length = 5 :=
  ⟨rfl, rfl⟩

/-- C10: the null-normalization step changes only field values: it preserves
the number of rows, the order of rows, and the (ordered) field names of each
row. -/
theorem C10_normalization_preserves_shape (rows : List Row) :
    (cleanJobs rows).length = rows.length ∧
    (cleanJobs rows).map rowKeys = rows.map rowKeys := by
  refine ⟨by simp [cleanJobs], ?_⟩
  simp only [cleanJobs, List.map_map]
  refine List.map_congr_left (fun r _ => ?_)
  simp [Function.comp, rowKeys, cleanRow, List.map_map]

/-- C4 counterexample: on the POST endpoint the 500 detail is `str(e)` with
no prefix, so an exception whose string form is empty yields an empty detail,
contradicting "detail message is non-empty". -/
theorem C4_empty_detail_counterexample :
    search_jobs_post_handler (ScrapeOutcome.exn "") =
      HandlerResult.httpError 500 "" ∧
    (resultDetail (search_jobs_post_handler (ScrapeOutcome.exn ""))).map
      String.isEmpty = some true :=
  ⟨rfl, rfl⟩

/-- C4 (amended): an exception during the external call never escapes either
handler unturned: it always becomes HTTP 500 whose detail contains the
exception's message text.  On the simple endpoint the detail carries the
prefix "Search failed: " and is therefore always non-empty; on the POST
endpoint the detail is exactly the exception's message, so it is non-empty
only when that message is. -/
theorem C4_exception_becomes_500 (e : String) :
    search_jobs_simple_handler (ScrapeOutcome.exn e) =
      HandlerResult.httpError 500 ("Search failed: " ++ e) ∧
    "Search failed: " ++ e ≠ "" ∧
    search_jobs_post_handler (ScrapeOutcome.exn e) =
      HandlerResult.httpError 500 e := by
  refine ⟨rfl, ?_, rfl⟩
  intro h
  have hlen := congrArg String.length h
  simp [String.length_append] at hlen
  exact absurd hlen.1 (by decide)

/-- C5: a request whose `results_wanted` lies outside [1,20] (simple
endpoint) resp. outside [1,50] (POST endpoint) is rejected with HTTP 422, and
the response does not depend on the external call's outcome: the scrape is
never attempted. -/
theorem C5_out_of_range_rejected (n m : Int) (s1 s2 : ScrapeOutcome)
    (request : JobSearchRequest)
    (hn : n < 1 ∨ 20 < n) (hm : m < 1 ∨ 50 < m)
    (hreq : request.results_wanted = some m) :
    endpoint_search_jobs_simple n s1 = HandlerResult.httpError 422 "validation error" ∧
    endpoint_search_jobs_post request s2 = HandlerResult.httpError 422 "validation error" := by
  constructor
  · rw [endpoint_search_jobs_simple, if_neg]
    omega
  · simp only [endpoint_search_jobs_post, hreq]
    rw [if_neg]
    omega

/-- Witness for C5: `results_wanted = 0` on the simple endpoint and
`results_wanted = 51` in the POST body are both rejected, whatever the
scraper would have returned. -/
theorem C5_out_of_range_rejected_witness :
    endpoint_search_jobs_simple 0 (ScrapeOutcome.ok none) =
      HandlerResult.httpError 422 "validation error" ∧
    endpoint_search_jobs_post
        { search_term := "developer", results_wanted := some 51 }
        (ScrapeOutcome.exn "network down") =
      HandlerResult.httpError 422 "validation error" :=
  C5_out_of_range_rejected 0 51 (ScrapeOutcome.ok none)
    (ScrapeOutcome.exn "network down")
    { search_term := "developer", results_wanted := some 51 }
    (Or.inl (by decide)) (Or.inr (by decide)) rfl

/-- C6: the parameter dict passed to the external scraper contains exactly
the truthy parameters: a pair survives the filtering on line 145 iff it was
in the prepared dict and its value is truthy. -/
theorem C6_falsy_params_stripped (request : JobSearchRequest)
    (k : String) (v : ParamValue) :
    (k, v) ∈ search_params request ↔
      (k, v) ∈ search_params_raw request ∧ py_truthy v = true := by
  simp [search_params, List.mem_filter]

/-- C7 counterexample: on an absent result set the two handlers disagree on
the message field ("No jobs found for the search criteria" vs
"No jobs found"), so they do not produce the same message. -/
theorem C7_message_counterexample :
    (responseOf (search_jobs_simple_handler (ScrapeOutcome.ok none))).map
        JobSearchResponse.message ≠
      (responseOf (search_jobs_post_handler (ScrapeOutcome.ok none))).map
        JobSearchResponse.message := by
  decide

/-- C7 (amended): given the same external result set, the two search handlers
produce the same success flag, the same `total_jobs` and the same `jobs`
list; their messages also agree whenever the result set is non-empty, but
differ on an empty or absent result set. -/
theorem C7_handlers_agree (df : Option (List Row)) :
    (responseOf (search_jobs_simple_handler (ScrapeOutcome.ok df))).map
        JobSearchResponse.success =
      (responseOf (search_jobs_post_handler (ScrapeOutcome.ok df))).map
        JobSearchResponse.success ∧
    (responseOf (search_jobs_simple_handler (ScrapeOutcome.ok df))).map
        JobSearchResponse.total_jobs =
      (responseOf (search_jobs_post_handler (ScrapeOutcome.ok df))).map
        JobSearchResponse.total_jobs ∧
    (responseOf (search_jobs_simple_handler (ScrapeOutcome.ok df))).map
        JobSearchResponse.jobs =
      (responseOf (search_jobs_post_handler (ScrapeOutcome.ok df))).map
        JobSearchResponse.jobs ∧
    (∀ rows, df = some rows → rows ≠ [] →
      (responseOf (search_jobs_simple_handler (ScrapeOutcome.ok df))).map
          JobSearchResponse.message =
        (responseOf (search_jobs_post_handler (ScrapeOutcome.ok df))).map
          JobSearchResponse.message) := by
  match df with
  | none => exact ⟨rfl, rfl, rfl, fun rows h => by cases h⟩
  | some [] => exact ⟨rfl, rfl, rfl, fun rows h hne => by cases h; cases hne rfl⟩
  | some (r :: rs) => exact ⟨rfl, rfl, rfl, fun rows _ _ => rfl⟩

/-- Witness for C7 at a concrete one-row result set: the messages agree. -/
theorem C7_handlers_agree_witness :
    (responseOf (search_jobs_simple_handler
        (ScrapeOutcome.ok (some [[("title", Value.nan)]])))).map
        JobSearchResponse.message =
      (responseOf (search_jobs_post_handler
        (ScrapeOutcome.ok (some [[("title", Value.nan)]])))).map
        JobSearchResponse.message :=
  (C7_handlers_agree (some [[("title", Value.nan)]])).2.2.2
    [[("title", Value.nan)]] rfl (by decide)

/-- C8: for every invocation of `GET /test`, an error importing the external
scraping dependency is reported as a structured payload — status "error",
message containing the caught exception's text, import flag false — never as
a failure response; on success the flag is true and the status "success". -/
theorem C8_test_endpoint_diagnostic (e : String) :
    (test_jobspy_handler (Except.error e)).status = "error" ∧
    (test_jobspy_handler (Except.error e)).jobspy_imported = false ∧
    (∃ pre post,
      (test_jobspy_handler (Except.error e)).message = pre ++ e ++ post) ∧
    (test_jobspy_handler (Except.ok ())).status = "success" ∧
    (test_jobspy_handler (Except.ok ())).jobspy_imported = true :=
  ⟨rfl, rfl, ⟨"JobSpy test failed: ", "", by simp [test_jobspy_handler]⟩, rfl, rfl⟩

/-- Witness for C4 at a concrete exception message. -/
theorem C4_exception_becomes_500_witness :
    search_jobs_simple_handler (ScrapeOutcome.exn "boom") =
      HandlerResult.httpError 500 ("Search failed: " ++ "boom") ∧
    "Search failed: " ++ "boom" ≠ "" ∧
    search_jobs_post_handler (ScrapeOutcome.exn "boom") =
      HandlerResult.httpError 500 "boom" :=
  C4_exception_becomes_500 "boom"
